import Mathlib

/-!
Verification development for the Handy repository's transcription client
(`src-tauri/src/gemini_client.rs`) and history command layer
(`src-tauri/src/commands/history.rs`).

Shallow embedding conventions:
* Audio samples (`f32` in the source) are modelled as exact rationals `ℚ`;
  the multiplication `sample * i16::MAX as f32` is modelled exactly.  The
  Rust float-to-integer `as i16` cast is modelled by its documented
  semantics: truncation toward zero, saturating at the i16 bounds.
* Bytes are `Nat` values below 256; byte streams are `List Nat`.
* The WAV container written by the `hound` crate for a mono 16-bit PCM spec
  is modelled as the standard 44-byte RIFF/WAVE header followed by the
  little-endian 16-bit samples; the in-memory cursor never fails, so the
  encoder always returns `Except.ok`.
* Network and JSON-parsing effects are abstracted as function parameters;
  functions additionally return the list of HTTP requests they issued, so
  that "no network call is made" is a statement about that trace.
-/

/-- Truncation of a rational toward zero, the rounding mode of a Rust
float-to-integer cast. -/
def ratTrunc (q : ℚ) : Int := if 0 ≤ q then ⌊q⌋ else ⌈q⌉

/-- Rust `as i16` applied to a float value (modelled as an exact rational):
truncation toward zero, saturating at the i16 bounds, per the defined
semantics of Rust float-to-int casts. -/
def rust_cast_to_i16 (q : ℚ) : Int := max (-32768) (min 32767 (ratTrunc q))

/-- The conversion `(sample * i16::MAX as f32) as i16` from
`samples_to_wav_bytes` (gemini_client.rs line 76); `i16::MAX = 32767`. -/
def sample_to_i16 (s : ℚ) : Int := rust_cast_to_i16 (s * 32767)

/-- Clamping a sample into the [-1.0, 1.0] input contract.  This is NOT done
by the source; it is stated only to compare the source's behavior against a
hypothetical clamp-to-range implementation. -/
def clamp_to_contract (s : ℚ) : ℚ := max (-1) (min 1 s)

/-- Little-endian two-byte encoding of a natural number (low 16 bits). -/
def u16le (n : Nat) : List Nat := [n % 256, n / 256 % 256]

/-- Little-endian four-byte encoding of a natural number (low 32 bits). -/
def u32le (n : Nat) : List Nat :=
  [n % 256, n / 256 % 256, n / 65536 % 256, n / 16777216 % 256]

/-- Little-endian two-byte encoding of an i16 value (two's complement). -/
def i16le (v : Int) : List Nat := u16le (v % 65536).toNat

/-- Reading back a little-endian 32-bit value from four bytes. -/
def readU32le (b : List Nat) : Nat :=
  b.getD 0 0 + 256 * b.getD 1 0 + 65536 * b.getD 2 0 + 16777216 * b.getD 3 0

/-- The 44-byte canonical WAV header the `hound` crate emits for the spec
used in `samples_to_wav_bytes`: RIFF/WAVE, PCM format 1, 1 channel,
16 bits per sample, the given sample rate, and `dataSize` data bytes. -/
def wav_header (dataSize rate : Nat) : List Nat :=
  [82, 73, 70, 70] ++ u32le (36 + dataSize) ++ [87, 65, 86, 69]
    ++ [102, 109, 116, 32] ++ u32le 16 ++ u16le 1 ++ u16le 1
    ++ u32le rate ++ u32le (rate * 2) ++ u16le 2 ++ u16le 16
    ++ [100, 97, 116, 97] ++ u32le dataSize

/-- The `samples_to_wav_bytes` function (gemini_client.rs lines 61-88):
converts f32 audio samples to WAV bytes at the given sample rate, mono,
16-bit signed PCM.  Writing to an in-memory cursor cannot fail, so the
result is always `Except.ok`. -/
def samples_to_wav_bytes (samples : List ℚ) (sample_rate : Nat) :
    Except String (List Nat) :=
  .ok (wav_header (2 * samples.length) sample_rate
    ++ samples.flatMap (fun s => i16le (sample_to_i16 s)))

/-- Reading a field of `len` bytes at offset `off` of a byte stream. -/
def read_field (b : List Nat) (off len : Nat) : List Nat := (b.drop off).take len

/-- A WAV decoder: checks the RIFF/WAVE magic values, the mono 16-bit PCM
format fields and the size fields, and returns the number of 16-bit samples
contained in the data chunk. -/
def wav_num_samples (b : List Nat) : Option Nat :=
  if read_field b 0 4 = [82, 73, 70, 70]
      ∧ read_field b 8 4 = [87, 65, 86, 69]
      ∧ read_field b 12 4 = [102, 109, 116, 32]
      ∧ read_field b 20 2 = u16le 1
      ∧ read_field b 22 2 = u16le 1
      ∧ read_field b 34 2 = u16le 16
      ∧ read_field b 36 4 = [100, 97, 116, 97]
      ∧ readU32le (read_field b 4 4) = 36 + readU32le (read_field b 40 4)
      ∧ b.length = 44 + readU32le (read_field b 40 4)
      ∧ readU32le (read_field b 40 4) % 2 = 0
  then some (readU32le (read_field b 40 4) / 2) else none

/-- The alphabet of the base64 STANDARD engine. -/
def base64_alphabet : List Char :=
  "ABCDEFGHIJKLMNOPQRSTUVWXYZabcdefghijklmnopqrstuvwxyz0123456789+/".data

/-- One base64 digit. -/
def b64char (n : Nat) : Char := base64_alphabet.getD n 'A'

/-- Base64 encoding of a byte stream with padding, as performed by
`base64::engine::general_purpose::STANDARD.encode`. -/
def base64_chars : List Nat → List Char
  | [] => []
  | [b0] => [b64char (b0 / 4), b64char (b0 % 4 * 16), '=', '=']
  | [b0, b1] =>
      [b64char (b0 / 4), b64char (b0 % 4 * 16 + b1 / 16), b64char (b1 % 16 * 4), '=']
  | b0 :: b1 :: b2 :: rest =>
      [b64char (b0 / 4), b64char (b0 % 4 * 16 + b1 / 16),
        b64char (b1 % 16 * 4 + b2 / 64), b64char (b2 % 64)] ++ base64_chars rest

/-- Base64 encode to a string (`STANDARD.encode`). -/
def base64_encode (bytes : List Nat) : String := ⟨base64_chars bytes⟩

/-- The `InlineData` request struct (gemini_client.rs lines 27-31). -/
structure InlineData where
  mime_type : String
  data : String
deriving DecidableEq

/-- The `Part` request enum (gemini_client.rs lines 20-25). -/
inductive ReqPart where
  | text (t : String)
  | inlineData (inline_data : InlineData)
deriving DecidableEq

/-- The `Content` request struct (gemini_client.rs lines 15-18). -/
structure Content where
  parts : List ReqPart
deriving DecidableEq

/-- The `GeminiRequest` struct (gemini_client.rs lines 10-13). -/
structure GeminiRequest where
  contents : List Content
deriving DecidableEq

/-- The `ResponsePart` response struct (gemini_client.rs lines 49-52). -/
structure ResponsePart where
  text : Option String
deriving DecidableEq

/-- The `CandidateContent` response struct (gemini_client.rs lines 44-47). -/
structure CandidateContent where
  parts : Option (List ResponsePart)
deriving DecidableEq

/-- The `Candidate` response struct (gemini_client.rs lines 39-42). -/
structure Candidate where
  content : Option CandidateContent
deriving DecidableEq

/-- The `GeminiError` response struct (gemini_client.rs lines 54-58). -/
structure GeminiError where
  message : String
  code : Option Int
deriving DecidableEq

/-- The `GeminiResponse` struct (gemini_client.rs lines 33-37). -/
structure GeminiResponse where
  candidates : Option (List Candidate)
  error : Option GeminiError
deriving DecidableEq

/-- An HTTP request as assembled by `send_transcription_request`: URL,
method, Content-Type header, and the serialized `GeminiRequest` body. -/
structure HttpRequest where
  url : String
  method : String
  contentType : String
  body : GeminiRequest
deriving DecidableEq

/-- The outcome of one HTTP exchange, abstracting the reqwest transport:
the send itself may fail, reading the response body may fail, or a status
code and body text are obtained. -/
inductive HttpOutcome where
  | sendFailure (e : String)
  | readFailure (e : String)
  | response (status : Nat) (body : String)

/-- reqwest `StatusCode::is_success`: 2xx statuses. -/
def status_is_success (status : Nat) : Bool := 200 ≤ status && status < 300

/-- The `GEMINI_API_BASE` constant (gemini_client.rs line 8). -/
def GEMINI_API_BASE : String := "https://generativelanguage.googleapis.com/v1beta"

/-- The request URL built in `send_transcription_request` (lines 164-167). -/
def request_url (model api_key : String) : String :=
  GEMINI_API_BASE ++ "/models/" ++ model ++ ":generateContent?key=" ++ api_key

/-- The request body built in `send_transcription_request` (lines 172-186):
a single content with exactly two ordered parts, the instruction text first
and the inline WAV audio second. -/
def build_request_body (prompt base64_audio : String) : GeminiRequest :=
  ⟨[⟨[ReqPart.text prompt, ReqPart.inlineData ⟨"audio/wav", base64_audio⟩]⟩]⟩

/-- The full HTTP request issued by `send_transcription_request`. -/
def mk_request (api_key model base64_audio prompt : String) : HttpRequest :=
  ⟨request_url model api_key, "POST", "application/json",
    build_request_body prompt base64_audio⟩

/-- Rust `{:?}` formatting of an `Option<i32>` error code. -/
def fmt_debug_code : Option Int → String
  | none => "None"
  | some n => "Some(" ++ toString n ++ ")"

/-- The error message for a non-success HTTP status (line 204). -/
def http_status_error (status : Nat) (body : String) : String :=
  "API request failed with status " ++ (toString status ++ (": " ++ body))

/-- The error message for an unparseable response body (line 208). -/
def parse_failure_error (e body : String) : String :=
  "Failed to parse response: " ++ (e ++ (" - Response: " ++ body))

/-- The error message for a provider-reported error object (lines 211-214). -/
def provider_error (code : Option Int) (message : String) : String :=
  "Gemini API error (code " ++ (fmt_debug_code code ++ ("): " ++ message))

/-- Rust `str::trim`: drop leading and trailing whitespace.  Modelled over
the character list; `Char.isWhitespace` agrees with Rust on ASCII
whitespace. -/
def rust_trim (s : String) : String :=
  ⟨((s.data.dropWhile Char.isWhitespace).reverse.dropWhile Char.isWhitespace).reverse⟩

/-- Text extraction from a parsed response (gemini_client.rs lines 218-227):
descend through the optional candidates, first candidate, optional content,
optional parts, first part, optional text; default to the empty string on
any absent level; trim surrounding whitespace. -/
def extract_text (r : GeminiResponse) : String :=
  rust_trim
    ((((((r.candidates.bind fun cs => cs.head?).bind fun c => c.content).bind
      fun c => c.parts).bind fun ps => ps.head?).bind fun p => p.text).getD "")

/-- Handling of a successfully parsed response body (lines 210-229): a
present top-level error object takes precedence and becomes the failure;
otherwise the extracted text is returned. -/
def handle_parsed_response (r : GeminiResponse) : Except String String :=
  match r.error with
  | some err => .error (provider_error err.code err.message)
  | none => .ok (extract_text r)

/-- The `send_transcription_request` function (gemini_client.rs lines
158-230), parameterized by the JSON parser (`serde_json::from_str`,
abstracted) and the HTTP transport.  Returns the result together with the
list of HTTP requests issued (always exactly one). -/
def send_transcription_request
    (parseJson : String → Except String GeminiResponse)
    (http : HttpRequest → HttpOutcome)
    (api_key model base64_audio prompt : String) :
    Except String String × List HttpRequest :=
  match http (mk_request api_key model base64_audio prompt) with
  | .sendFailure e =>
    (.error ("HTTP request failed: " ++ e), [mk_request api_key model base64_audio prompt])
  | .readFailure e =>
    (.error ("Failed to read response: " ++ e), [mk_request api_key model base64_audio prompt])
  | .response status body =>
    if ¬ status_is_success status then
      (.error (http_status_error status body), [mk_request api_key model base64_audio prompt])
    else
      match parseJson body with
      | .error e =>
        (.error (parse_failure_error e body), [mk_request api_key model base64_audio prompt])
      | .ok resp =>
        (handle_parsed_response resp, [mk_request api_key model base64_audio prompt])

/-- The fixed ordered candidate model list (gemini_client.rs line 133). -/
def candidate_models : List String := ["gemini-2.5-flash", "gemini-2.0-flash"]

/-- The prompt built in `transcribe_audio` (lines 122-130): a language hint
that is present and not the sentinel "auto" is embedded in the instruction,
otherwise the language-agnostic instruction is used. -/
def build_prompt : Option String → String
  | some lang =>
      if lang ≠ "auto" then
        "Transcribe this audio. The language is " ++ lang
          ++ ". Return only the transcribed text, nothing else."
      else "Transcribe this audio. Return only the transcribed text, nothing else."
  | none => "Transcribe this audio. Return only the transcribed text, nothing else."

/-- The fallback loop of `transcribe_audio` (lines 132-155): try each
candidate model in order, returning the first success; on failure remember
the error and continue; when the list is exhausted return the aggregated
failure built from the last error. -/
def try_models (parseJson : String → Except String GeminiResponse)
    (http : HttpRequest → HttpOutcome)
    (api_key base64_audio prompt : String) :
    List String → String → Except String String × List HttpRequest
  | [], last_error => (.error ("Gemini transcription failed: " ++ last_error), [])
  | model :: rest, _ =>
    match send_transcription_request parseJson http api_key model base64_audio prompt with
    | (.ok t, reqs) => (.ok t, reqs)
    | (.error e, reqs) =>
      let r := try_models parseJson http api_key base64_audio prompt rest e
      (r.1, reqs ++ r.2)

/-- The `transcribe_audio` function (gemini_client.rs lines 99-156):
precondition checks on the API key and the sample list, WAV encoding at
16 kHz, base64 encoding, prompt construction, then the model fallback
loop.  Returns the result together with the issued HTTP request trace. -/
def transcribe_audio (parseJson : String → Except String GeminiResponse)
    (http : HttpRequest → HttpOutcome)
    (api_key : String) (samples : List ℚ) (language_hint : Option String) :
    Except String String × List HttpRequest :=
  if api_key = "" then
    (.error "Gemini API key is not configured. Please add your API key in Settings.", [])
  else if samples = [] then (.ok "", [])
  else
    match samples_to_wav_bytes samples 16000 with
    | .error e => (.error e, [])
    | .ok wav_bytes =>
      let base64_audio := base64_encode wav_bytes
      let prompt := build_prompt language_hint
      try_models parseJson http api_key base64_audio prompt candidate_models ""

/-- Modelled from the spec: the `RecordingRetentionPeriod` enum, declared in
the settings module that is not part of the analyzed sources; the spec lists
exactly the five named policy values. -/
inductive RecordingRetentionPeriod where
  | Never
  | PreserveLimit
  | Days3
  | Weeks2
  | Months3
deriving DecidableEq

/-- Modelled from the spec: the settings-store fields the history commands
read and write (`history_limit` and `recording_retention_period`). -/
structure Settings where
  history_limit : Nat
  recording_retention_period : RecordingRetentionPeriod
deriving DecidableEq

/-- An observable effect of a history command: persisting the settings via
`write_settings`, or invoking `HistoryManager::cleanup_old_entries`. -/
inductive CommandEffect where
  | writeSettings (s : Settings)
  | cleanup
deriving DecidableEq

/-- The token match of `update_recording_retention_period`
(commands/history.rs lines 99-106). -/
def parse_retention_period (period : String) :
    Except String RecordingRetentionPeriod :=
  if period = "never" then .ok .Never
  else if period = "preserve_limit" then .ok .PreserveLimit
  else if period = "days3" then .ok .Days3
  else if period = "weeks2" then .ok .Weeks2
  else if period = "months3" then .ok .Months3
  else .error ("Invalid retention period: " ++ period)

/-- The `update_history_limit` command (commands/history.rs lines 74-88).
The settings store is passed explicitly; the outcome of the opaque
`cleanup_old_entries` (already stringified by `map_err`) is a parameter.
Returns the result, the settings as left persisted, and the effect trace. -/
def update_history_limit (settings : Settings) (limit : Nat)
    (cleanupRes : Except String Unit) :
    Except String Unit × Settings × List CommandEffect :=
  let s2 := { settings with history_limit := limit }
  match cleanupRes with
  | .error e => (.error e, s2, [.writeSettings s2, .cleanup])
  | .ok _ => (.ok (), s2, [.writeSettings s2, .cleanup])

/-- The `update_recording_retention_period` command (commands/history.rs
lines 92-117): parse the token, returning early on an invalid token before
touching settings or history; otherwise persist the new settings, then run
cleanup. -/
def update_recording_retention_period (settings : Settings) (period : String)
    (cleanupRes : Except String Unit) :
    Except String Unit × Settings × List CommandEffect :=
  match parse_retention_period period with
  | .error e => (.error e, settings, [])
  | .ok rp =>
    let s2 := { settings with recording_retention_period := rp }
    match cleanupRes with
    | .error e => (.error e, s2, [.writeSettings s2, .cleanup])
    | .ok _ => (.ok (), s2, [.writeSettings s2, .cleanup])

/-- A concrete JSON parser stub for witnesses: every body parses to the
response with no candidates and no error object. -/
def parse_w : String → Except String GeminiResponse := fun _ => .ok ⟨none, none⟩

/-- A concrete transport for witnesses: every send fails at the transport
level. -/
def http_fail_w : HttpRequest → HttpOutcome := fun _ => .sendFailure "boom"

/-- A concrete transport for witnesses: every request yields HTTP 404. -/
def http_404_w : HttpRequest → HttpOutcome := fun _ => .response 404 "not found"

/-- A concrete transport for witnesses: every request yields HTTP 200 with
an empty JSON object body. -/
def http_200_w : HttpRequest → HttpOutcome := fun _ => .response 200 "\x7b\x7d"

/-- The WAV bytes of the one-sample input `[0]` at 16 kHz, for witnesses. -/
def wav_w : List Nat := wav_header 2 16000 ++ i16le (sample_to_i16 0)

/-- The base64 audio of `wav_w`, for witnesses. -/
def audio_w : String := base64_encode wav_w

/-- The language-agnostic prompt, for witnesses. -/
def prompt_w : String := build_prompt none

/-- Truncation toward zero is monotone against an integer upper bound that
is nonnegative. -/
theorem ratTrunc_le_of_le (q : ℚ) (n : Int) (h : q ≤ (n : ℚ)) (hn : 0 ≤ n) :
    ratTrunc q ≤ n := by
  unfold ratTrunc
  split
  · calc ⌊q⌋ ≤ ⌊(n : ℚ)⌋ := Int.floor_le_floor h
    _ = n := Int.floor_intCast n
  · have hq : q ≤ 0 := le_of_not_le (by assumption)
    have : ⌈q⌉ ≤ (0 : Int) := Int.ceil_le.mpr (by push_cast; exact hq)
    omega

/-- Truncation toward zero is monotone against an integer lower bound that
is nonpositive. -/
theorem le_ratTrunc_of_le (q : ℚ) (n : Int) (h : (n : ℚ) ≤ q) (hn : n ≤ 0) :
    n ≤ ratTrunc q := by
  unfold ratTrunc
  split
  · have : (0 : Int) ≤ ⌊q⌋ := Int.floor_nonneg.mpr (by assumption)
    omega
  · calc n = ⌈(n : ℚ)⌉ := (Int.ceil_intCast n).symm
    _ ≤ ⌈q⌉ := Int.ceil_le_ceil h

/-- C2: each sample is converted by scaling it by the maximum 16-bit signed
magnitude (32767) and truncating toward zero, with no independent clipping
within the [-1.0, 1.0] input contract; an out-of-range input such as -2.0
produces the overflow behavior of the Rust cast (saturation to -32768),
which is not what clamping the input to the contract range first would
produce (-32767). -/
theorem sample_conversion_scale_truncate :
    (∀ s : ℚ, -1 ≤ s → s ≤ 1 → sample_to_i16 s = ratTrunc (s * 32767)) ∧
    sample_to_i16 (-2) = -32768 ∧
    sample_to_i16 (clamp_to_contract (-2)) = -32767 ∧
    sample_to_i16 (-2) ≠ sample_to_i16 (clamp_to_contract (-2)) := by
  have hmain : ∀ s : ℚ, -1 ≤ s → s ≤ 1 → sample_to_i16 s = ratTrunc (s * 32767) := by
    intro s h1 h2
    unfold sample_to_i16 rust_cast_to_i16
    have hq1 : ((-32767 : Int) : ℚ) ≤ s * 32767 := by push_cast; nlinarith
    have hq2 : s * 32767 ≤ ((32767 : Int) : ℚ) := by push_cast; nlinarith
    have ht1 := le_ratTrunc_of_le _ _ hq1 (by norm_num)
    have ht2 := ratTrunc_le_of_le _ _ hq2 (by norm_num)
    omega
  have hneg2 : sample_to_i16 (-2) = -32768 := by
    have h : ((-2 : ℚ) * 32767) = ((-65534 : Int) : ℚ) := by norm_num
    rw [sample_to_i16, rust_cast_to_i16, ratTrunc, h]
    rw [Int.floor_intCast, Int.ceil_intCast]
    norm_num
  have hclamp : sample_to_i16 (clamp_to_contract (-2)) = -32767 := by
    have h : clamp_to_contract (-2) = -1 := by unfold clamp_to_contract; norm_num
    rw [h]
    have h2 : ((-1 : ℚ) * 32767) = ((-32767 : Int) : ℚ) := by norm_num
    rw [sample_to_i16, rust_cast_to_i16, ratTrunc, h2]
    rw [Int.floor_intCast, Int.ceil_intCast]
    norm_num
  exact ⟨hmain, hneg2, hclamp, by rw [hneg2, hclamp]; omega⟩

/-- Witness for C2 at the in-contract sample 1/2. -/
theorem sample_conversion_scale_truncate_witness :
    ((-1 : ℚ) ≤ 1 / 2 ∧ (1 / 2 : ℚ) ≤ 1) ∧
    sample_to_i16 (1 / 2) = ratTrunc (1 / 2 * 32767) :=
  ⟨⟨by norm_num, by norm_num⟩,
    sample_conversion_scale_truncate.1 (1 / 2) (by norm_num) (by norm_num)⟩

/-- C1: the precondition checks of `transcribe_audio` run in order before
any encoding or network activity: an empty API key fails immediately with
the configuration error and no HTTP request is issued (even when the sample
list is also empty, so the key check comes first); with a non-empty key an
empty sample list returns the empty string immediately with no HTTP request
issued. -/
theorem transcribe_precondition_checks
    (parseJson : String → Except String GeminiResponse)
    (http : HttpRequest → HttpOutcome) :
    (∀ (samples : List ℚ) hint, transcribe_audio parseJson http "" samples hint =
      (.error "Gemini API key is not configured. Please add your API key in Settings.",
        [])) ∧
    (∀ api_key hint, api_key ≠ "" →
      transcribe_audio parseJson http api_key [] hint = (.ok "", [])) := by
  constructor
  · intro samples hint
    simp [transcribe_audio]
  · intro api_key hint h
    simp [transcribe_audio, h]

/-- Witness for C1 at the concrete key "k" and the empty sample list. -/
theorem transcribe_precondition_checks_witness :
    "k" ≠ "" ∧ transcribe_audio parse_w http_fail_w "k" [] none = (.ok "", []) :=
  ⟨by decide,
    (transcribe_precondition_checks parse_w http_fail_w).2 "k" none (by decide)⟩

/-- C8: the retention-period setter accepts exactly the five lowercase
tokens, mapping each to the corresponding policy, and fails with the
configuration error on every other string instead of falling back to a
default policy. -/
theorem retention_token_parsing :
    parse_retention_period "never" = .ok .Never ∧
    parse_retention_period "preserve_limit" = .ok .PreserveLimit ∧
    parse_retention_period "days3" = .ok .Days3 ∧
    parse_retention_period "weeks2" = .ok .Weeks2 ∧
    parse_retention_period "months3" = .ok .Months3 ∧
    (∀ p, p ≠ "never" → p ≠ "preserve_limit" → p ≠ "days3" → p ≠ "weeks2" →
      p ≠ "months3" →
      parse_retention_period p = .error ("Invalid retention period: " ++ p)) := by
  refine ⟨rfl, rfl, rfl, rfl, rfl, ?_⟩
  intro p h1 h2 h3 h4 h5
  simp [parse_retention_period, h1, h2, h3, h4, h5]

/-- Witness for C8 at the unrecognized token "forever". -/
theorem retention_token_parsing_witness :
    "forever" ≠ "never" ∧
    parse_retention_period "forever" =
      .error ("Invalid retention period: " ++ "forever") :=
  ⟨by decide,
    retention_token_parsing.2.2.2.2.2 "forever" (by decide) (by decide) (by decide)
      (by decide) (by decide)⟩

/-- C4: parsed-response handling is total and error-precedent: a present
top-level error object becomes the failure carrying its message and
optional numeric code; otherwise extraction descends through the optional
candidates, content, parts and first part's text, yielding the empty string
whenever any level is absent, and trims the extracted text — it never fails
on a missing level. -/
theorem response_parsing_total :
    (∀ r err, r.error = some err →
      handle_parsed_response r = .error (provider_error err.code err.message)) ∧
    (∀ r, r.error = none → handle_parsed_response r = .ok (extract_text r)) ∧
    (∀ r, r.candidates = none → extract_text r = "") ∧
    (∀ r, r.candidates = some [] → extract_text r = "") ∧
    (∀ r c cs, r.candidates = some (c :: cs) → c.content = none →
      extract_text r = "") ∧
    (∀ r c cs cc, r.candidates = some (c :: cs) → c.content = some cc →
      cc.parts = none → extract_text r = "") ∧
    (∀ r c cs cc, r.candidates = some (c :: cs) → c.content = some cc →
      cc.parts = some [] → extract_text r = "") ∧
    (∀ r c cs cc p ps, r.candidates = some (c :: cs) → c.content = some cc →
      cc.parts = some (p :: ps) → p.text = none → extract_text r = "") ∧
    (∀ r c cs cc p ps t, r.candidates = some (c :: cs) → c.content = some cc →
      cc.parts = some (p :: ps) → p.text = some t →
      extract_text r = rust_trim t) := by
  refine ⟨?_, ?_, ?_, ?_, ?_, ?_, ?_, ?_, ?_⟩
  · intro r err h
    simp [handle_parsed_response, h]
  · intro r h
    simp [handle_parsed_response, h]
  · intro r h
    simp [extract_text, h]
    try rfl
  · intro r h
    simp [extract_text, h]
    try rfl
  · intro r c cs h1 h2
    simp [extract_text, h1, h2]
    try rfl
  · intro r c cs cc h1 h2 h3
    simp [extract_text, h1, h2, h3]
    try rfl
  · intro r c cs cc h1 h2 h3
    simp [extract_text, h1, h2, h3]
    try rfl
  · intro r c cs cc p ps h1 h2 h3 h4
    simp [extract_text, h1, h2, h3, h4]
    try rfl
  · intro r c cs cc p ps t h1 h2 h3 h4
    simp [extract_text, h1, h2, h3, h4]

/-- Witness for C4 at a response carrying a top-level error object. -/
theorem response_parsing_total_witness :
    (GeminiResponse.mk none (some ⟨"quota exceeded", some 429⟩)).error =
      some ⟨"quota exceeded", some 429⟩ ∧
    handle_parsed_response ⟨none, some ⟨"quota exceeded", some 429⟩⟩ =
      .error (provider_error (some 429) "quota exceeded") :=
  ⟨rfl, response_parsing_total.1 _ _ rfl⟩

/-- The head of an appended character list. -/
theorem head_app (l₁ l₂ : List Char) : (l₁ ++ l₂).head? = l₁.head?.or l₂.head? := by
  cases l₁ <;> simp

/-- Two string concatenations whose constant left parts start with different
characters are never equal. -/
theorem string_app_ne (a b : String) (c1 c2 : Char)
    (ha : a.data.head? = some c1) (hb : b.data.head? = some c2) (hne : c1 ≠ c2)
    (x y : String) : a ++ x ≠ b ++ y := by
  intro h
  have hd := congrArg (fun s => s.data.head?) h
  simp only [String.data_append] at hd
  rw [head_app, head_app, ha, hb] at hd
  simp [Option.or] at hd
  exact hne hd

/-- The trace of one `send_transcription_request` call: exactly the one
request built by `mk_request`. -/
theorem send_trace (parseJson : String → Except String GeminiResponse)
    (http : HttpRequest → HttpOutcome) (api_key model base64_audio prompt : String) :
    (send_transcription_request parseJson http api_key model base64_audio prompt).2 =
      [mk_request api_key model base64_audio prompt] := by
  unfold send_transcription_request
  cases hh : http (mk_request api_key model base64_audio prompt) with
  | sendFailure e => rfl
  | readFailure e => rfl
  | response status body =>
    by_cases hs : status_is_success status
    · simp only [hs]
      cases hp : parseJson body <;> simp
    · simp [hs]

/-- C5: each per-candidate request is a POST to
`{base}/models/{model}:generateContent?key={api_key}` with Content-Type
application/json; a non-success HTTP status yields a failure carrying the
status code and raw body; an unparseable body yields a failure, and the
three failure kinds (HTTP status, unparseable body, provider-reported
error) have pairwise distinct messages. -/
theorem request_shape_and_failure_kinds
    (parseJson : String → Except String GeminiResponse)
    (http : HttpRequest → HttpOutcome) (api_key model base64_audio prompt : String) :
    GEMINI_API_BASE = "https://generativelanguage.googleapis.com/v1beta" ∧
    (mk_request api_key model base64_audio prompt).url =
      GEMINI_API_BASE ++ "/models/" ++ model ++ ":generateContent?key=" ++ api_key ∧
    (mk_request api_key model base64_audio prompt).method = "POST" ∧
    (mk_request api_key model base64_audio prompt).contentType = "application/json" ∧
    (send_transcription_request parseJson http api_key model base64_audio prompt).2 =
      [mk_request api_key model base64_audio prompt] ∧
    (∀ status body,
      http (mk_request api_key model base64_audio prompt) = .response status body →
      status_is_success status = false →
      (send_transcription_request parseJson http api_key model base64_audio prompt).1 =
        .error (http_status_error status body)) ∧
    (∀ status body e,
      http (mk_request api_key model base64_audio prompt) = .response status body →
      status_is_success status = true → parseJson body = .error e →
      (send_transcription_request parseJson http api_key model base64_audio prompt).1 =
        .error (parse_failure_error e body)) ∧
    (∀ s b e b2, http_status_error s b ≠ parse_failure_error e b2) ∧
    (∀ e b c m, parse_failure_error e b ≠ provider_error c m) ∧
    (∀ s b c m, http_status_error s b ≠ provider_error c m) := by
  refine ⟨rfl, rfl, rfl, rfl, send_trace parseJson http api_key model base64_audio prompt,
    ?_, ?_, ?_, ?_, ?_⟩
  · intro status body hh hs
    unfold send_transcription_request
    rw [hh]
    simp [hs]
  · intro status body e hh hs hp
    unfold send_transcription_request
    rw [hh]
    simp [hs, hp]
  · intro s b e b2
    unfold http_status_error parse_failure_error
    exact string_app_ne "API request failed with status " "Failed to parse response: "
      'A' 'F' (by decide) (by decide) (by decide) _ _
  · intro e b c m
    unfold parse_failure_error provider_error
    exact string_app_ne "Failed to parse response: " "Gemini API error (code "
      'F' 'G' (by decide) (by decide) (by decide) _ _
  · intro s b c m
    unfold http_status_error provider_error
    exact string_app_ne "API request failed with status " "Gemini API error (code "
      'A' 'G' (by decide) (by decide) (by decide) _ _

/-- Witness for C5: a 404 response produces the HTTP-status failure. -/
theorem request_shape_and_failure_kinds_witness :
    http_404_w (mk_request "k" "m" "a" "p") = .response 404 "not found" ∧
    status_is_success 404 = false ∧
    (send_transcription_request parse_w http_404_w "k" "m" "a" "p").1 =
      .error (http_status_error 404 "not found") :=
  ⟨rfl, rfl,
    (request_shape_and_failure_kinds parse_w http_404_w "k" "m" "a" "p").2.2.2.2.2.1
      404 "not found" rfl rfl⟩

/-- A successful candidate short-circuits the fallback loop. -/
theorem try_models_ok (parseJson : String → Except String GeminiResponse)
    (http : HttpRequest → HttpOutcome) (api_key audio prompt model : String)
    (rest : List String) (le t : String)
    (h : (send_transcription_request parseJson http api_key model audio prompt).1 = .ok t) :
    try_models parseJson http api_key audio prompt (model :: rest) le =
      (.ok t, [mk_request api_key model audio prompt]) := by
  have e2 := send_trace parseJson http api_key model audio prompt
  simp only [try_models]
  cases hsend : send_transcription_request parseJson http api_key model audio prompt with
  | mk a b =>
    rw [hsend] at h e2
    simp only at h e2
    subst h
    subst e2
    rfl

/-- A failing candidate makes the fallback loop record its error and
continue with the remaining candidates. -/
theorem try_models_err (parseJson : String → Except String GeminiResponse)
    (http : HttpRequest → HttpOutcome) (api_key audio prompt model : String)
    (rest : List String) (le e : String)
    (h : (send_transcription_request parseJson http api_key model audio prompt).1 = .error e) :
    try_models parseJson http api_key audio prompt (model :: rest) le =
      ((try_models parseJson http api_key audio prompt rest e).1,
        mk_request api_key model audio prompt ::
          (try_models parseJson http api_key audio prompt rest e).2) := by
  have e2 := send_trace parseJson http api_key model audio prompt
  simp only [try_models]
  cases hsend : send_transcription_request parseJson http api_key model audio prompt with
  | mk a b =>
    rw [hsend] at h e2
    simp only at h e2
    subst h
    subst e2
    rfl

/-- The first request the fallback loop issues belongs to the first
candidate model, whatever the outcome. -/
theorem try_models_head (parseJson : String → Except String GeminiResponse)
    (http : HttpRequest → HttpOutcome) (api_key audio prompt model : String)
    (rest : List String) (le : String) :
    (try_models parseJson http api_key audio prompt (model :: rest) le).2.head? =
      some (mk_request api_key model audio prompt) := by
  have e2 := send_trace parseJson http api_key model audio prompt
  simp only [try_models]
  cases hsend : send_transcription_request parseJson http api_key model audio prompt with
  | mk a b =>
    rw [hsend] at e2
    simp only at e2
    subst e2
    cases a <;> simp

/-- The body of `transcribe_audio` past its precondition checks is the
fallback loop over the fixed candidate list. -/
theorem transcribe_to_try_models (parseJson : String → Except String GeminiResponse)
    (http : HttpRequest → HttpOutcome)
    (api_key : String) (samples : List ℚ) (hint : Option String)
    (hk : api_key ≠ "") (hs : samples ≠ [])
    (wav_bytes : List Nat) (hw : samples_to_wav_bytes samples 16000 = .ok wav_bytes) :
    transcribe_audio parseJson http api_key samples hint =
      try_models parseJson http api_key (base64_encode wav_bytes)
        (build_prompt hint) candidate_models "" := by
  unfold transcribe_audio
  rw [if_neg hk, if_neg hs, hw]

/-- C3: candidate models are tried in the fixed order, primary
"gemini-2.5-flash" first: a primary success is returned at once with only
the primary's request issued; after a primary failure the fallback
"gemini-2.0-flash" is tried and its success returned; when both fail the
single aggregated failure contains the last candidate's error, with both
requests issued in order. -/
theorem transcribe_fallback_order
    (parseJson : String → Except String GeminiResponse)
    (http : HttpRequest → HttpOutcome)
    (api_key : String) (samples : List ℚ) (hint : Option String)
    (hk : api_key ≠ "") (hs : samples ≠ [])
    (wav_bytes : List Nat) (hw : samples_to_wav_bytes samples 16000 = .ok wav_bytes)
    (audio prompt : String) (haudio : audio = base64_encode wav_bytes)
    (hprompt : prompt = build_prompt hint) :
    (∀ t,
      (send_transcription_request parseJson http api_key "gemini-2.5-flash" audio prompt).1 =
        .ok t →
      transcribe_audio parseJson http api_key samples hint =
        (.ok t, [mk_request api_key "gemini-2.5-flash" audio prompt])) ∧
    (∀ e t,
      (send_transcription_request parseJson http api_key "gemini-2.5-flash" audio prompt).1 =
        .error e →
      (send_transcription_request parseJson http api_key "gemini-2.0-flash" audio prompt).1 =
        .ok t →
      transcribe_audio parseJson http api_key samples hint =
        (.ok t, [mk_request api_key "gemini-2.5-flash" audio prompt,
          mk_request api_key "gemini-2.0-flash" audio prompt])) ∧
    (∀ e1 e2,
      (send_transcription_request parseJson http api_key "gemini-2.5-flash" audio prompt).1 =
        .error e1 →
      (send_transcription_request parseJson http api_key "gemini-2.0-flash" audio prompt).1 =
        .error e2 →
      transcribe_audio parseJson http api_key samples hint =
        (.error ("Gemini transcription failed: " ++ e2),
          [mk_request api_key "gemini-2.5-flash" audio prompt,
            mk_request api_key "gemini-2.0-flash" audio prompt])) := by
  subst haudio
  subst hprompt
  have htr := transcribe_to_try_models parseJson http api_key samples hint hk hs wav_bytes hw
  refine ⟨?_, ?_, ?_⟩
  · intro t h1
    rw [htr]
    simp only [candidate_models]
    rw [try_models_ok parseJson http api_key _ _ _ _ _ t h1]
  · intro e t h1 h2
    rw [htr]
    simp only [candidate_models]
    rw [try_models_err parseJson http api_key _ _ _ _ _ e h1]
    rw [try_models_ok parseJson http api_key _ _ _ _ _ t h2]
  · intro e1 e2 h1 h2
    rw [htr]
    simp only [candidate_models]
    rw [try_models_err parseJson http api_key _ _ _ _ _ e1 h1]
    rw [try_models_err parseJson http api_key _ _ _ _ _ e2 h2]
    rfl

/-- Witness for C3: a transport that fails every request exercises the
both-candidates-fail branch at concrete inputs. -/
theorem transcribe_fallback_order_witness :
    transcribe_audio parse_w http_fail_w "k" [0] none =
      (.error ("Gemini transcription failed: HTTP request failed: boom"),
        [mk_request "k" "gemini-2.5-flash" audio_w prompt_w,
          mk_request "k" "gemini-2.0-flash" audio_w prompt_w]) := by
  have h := transcribe_fallback_order parse_w http_fail_w "k" [0] none
    (by decide) (by decide) wav_w rfl audio_w prompt_w rfl rfl
  exact h.2.2 "HTTP request failed: boom" "HTTP request failed: boom" rfl rfl

/-- C7: a present language hint other than the sentinel "auto" is embedded
in the instruction text; an absent hint or the sentinel yields the
language-agnostic instruction; and the request payload packages the
instruction and the base64 audio as exactly two ordered parts of a single
content, text part first, inline-audio part second. -/
theorem prompt_and_payload_parts :
    build_prompt none =
      "Transcribe this audio. Return only the transcribed text, nothing else." ∧
    build_prompt (some "auto") =
      "Transcribe this audio. Return only the transcribed text, nothing else." ∧
    (∀ lang, lang ≠ "auto" → build_prompt (some lang) =
      "Transcribe this audio. The language is " ++ lang
        ++ ". Return only the transcribed text, nothing else.") ∧
    (∀ prompt audio, (build_request_body prompt audio).contents =
      [Content.mk [ReqPart.text prompt,
        ReqPart.inlineData ⟨"audio/wav", audio⟩]]) ∧
    (∀ parseJson http api_key (samples : List ℚ) hint wav_bytes,
      api_key ≠ "" → samples ≠ [] →
      samples_to_wav_bytes samples 16000 = .ok wav_bytes →
      ((transcribe_audio parseJson http api_key samples hint).2.head?).map
          (fun r => r.body) =
        some (build_request_body (build_prompt hint) (base64_encode wav_bytes))) := by
  refine ⟨rfl, rfl, ?_, fun _ _ => rfl, ?_⟩
  · intro lang h
    simp [build_prompt, h]
  · intro parseJson http api_key samples hint wav_bytes hk hs hw
    rw [transcribe_to_try_models parseJson http api_key samples hint hk hs wav_bytes hw]
    simp only [candidate_models]
    rw [try_models_head]
    rfl

/-- Witness for C7 at the hint "es" and a one-sample transcription call. -/
theorem prompt_and_payload_parts_witness :
    "es" ≠ "auto" ∧
    build_prompt (some "es") =
      "Transcribe this audio. The language is " ++ "es"
        ++ ". Return only the transcribed text, nothing else." ∧
    ((transcribe_audio parse_w http_fail_w "k" [0] none).2.head?).map
        (fun r => r.body) =
      some (build_request_body (build_prompt none) (base64_encode wav_w)) :=
  ⟨by decide, prompt_and_payload_parts.2.2.1 "es" (by decide),
    prompt_and_payload_parts.2.2.2.2 parse_w http_fail_w "k" [0] none wav_w
      (by decide) (by decide) rfl⟩

/-- C9: each successful settings change through `update_history_limit` or
`update_recording_retention_period` produces exactly the effect trace that
first persists the new settings and then invokes retention cleanup. -/
theorem settings_update_triggers_cleanup :
    (∀ settings limit cleanupRes,
      (update_history_limit settings limit cleanupRes).2.2 =
        [CommandEffect.writeSettings { settings with history_limit := limit },
          CommandEffect.cleanup]) ∧
    (∀ settings period rp cleanupRes, parse_retention_period period = .ok rp →
      (update_recording_retention_period settings period cleanupRes).2.2 =
        [CommandEffect.writeSettings
            { settings with recording_retention_period := rp },
          CommandEffect.cleanup]) := by
  constructor
  · intro settings limit cleanupRes
    cases cleanupRes <;> simp [update_history_limit]
  · intro settings period rp cleanupRes h
    cases cleanupRes <;> simp [update_recording_retention_period, h]

/-- Witness for C9 at the token "days3" and a concrete settings value. -/
theorem settings_update_triggers_cleanup_witness :
    parse_retention_period "days3" = .ok .Days3 ∧
    (update_recording_retention_period ⟨7, .Never⟩ "days3" (.ok ())).2.2 =
      [CommandEffect.writeSettings ⟨7, .Days3⟩, CommandEffect.cleanup] :=
  ⟨rfl,
    settings_update_triggers_cleanup.2 ⟨7, .Never⟩ "days3" .Days3 (.ok ()) rfl⟩

/-- C10: when the retention-period token is invalid, the setter returns its
failure before writing settings and before invoking cleanup: the settings
value is returned unchanged and the effect trace is empty. -/
theorem invalid_token_atomic (settings : Settings) (period e : String)
    (cleanupRes : Except String Unit)
    (h : parse_retention_period period = .error e) :
    update_recording_retention_period settings period cleanupRes =
      (.error e, settings, []) := by
  simp [update_recording_retention_period, h]

/-- Witness for C10 at the invalid token "always". -/
theorem invalid_token_atomic_witness :
    parse_retention_period "always" =
      .error ("Invalid retention period: " ++ "always") ∧
    update_recording_retention_period ⟨7, .Never⟩ "always" (.ok ()) =
      (.error ("Invalid retention period: " ++ "always"), ⟨7, .Never⟩, []) :=
  ⟨rfl,
    invalid_token_atomic ⟨7, .Never⟩ "always" ("Invalid retention period: " ++ "always")
      (.ok ()) rfl⟩

/-- Reading back a four-byte little-endian field recovers the low 32 bits. -/
theorem readU32le_u32le (n : Nat) : readU32le (u32le n) = n % 4294967296 := by
  simp [readU32le, u32le, List.getD]
  omega

/-- The data chunk holds two bytes per sample. -/
theorem flat_len (samples : List ℚ) :
    (samples.flatMap fun s => i16le (sample_to_i16 s)).length = 2 * samples.length := by
  induction samples with
  | nil => rfl
  | cons a t ih =>
    simp only [List.flatMap_cons, List.length_append, List.length_cons, ih]
    simp [i16le, u16le]
    ring

/-- The WAV header is 44 bytes long. -/
theorem wav_header_len (ds rate : Nat) : (wav_header ds rate).length = 44 := by
  simp [wav_header, u32le, u16le]

/-- The fields of an encoded WAV stream read back as written. -/
theorem wav_drops (ds rate : Nat) (data : List Nat) :
    (read_field (wav_header ds rate ++ data) 0 4 = [82, 73, 70, 70])
    ∧ (read_field (wav_header ds rate ++ data) 4 4 = u32le (36 + ds))
    ∧ (read_field (wav_header ds rate ++ data) 8 4 = [87, 65, 86, 69])
    ∧ (read_field (wav_header ds rate ++ data) 12 4 = [102, 109, 116, 32])
    ∧ (read_field (wav_header ds rate ++ data) 20 2 = u16le 1)
    ∧ (read_field (wav_header ds rate ++ data) 22 2 = u16le 1)
    ∧ (read_field (wav_header ds rate ++ data) 34 2 = u16le 16)
    ∧ (read_field (wav_header ds rate ++ data) 36 4 = [100, 97, 116, 97])
    ∧ (read_field (wav_header ds rate ++ data) 40 4 = u32le ds) := by
  have hb : wav_header ds rate ++ data =
      [82, 73, 70, 70] ++ (u32le (36 + ds) ++ ([87, 65, 86, 69] ++ ([102, 109, 116, 32]
        ++ (u32le 16 ++ (u16le 1 ++ (u16le 1 ++ (u32le rate ++ (u32le (rate * 2)
        ++ (u16le 2 ++ (u16le 16 ++ ([100, 97, 116, 97] ++ (u32le ds ++ data)))))))))))) := by
    simp [wav_header, List.append_assoc]
  set b := wav_header ds rate ++ data with hbdef
  have d4 : b.drop 4 = u32le (36 + ds) ++ ([87, 65, 86, 69] ++ ([102, 109, 116, 32]
        ++ (u32le 16 ++ (u16le 1 ++ (u16le 1 ++ (u32le rate ++ (u32le (rate * 2)
        ++ (u16le 2 ++ (u16le 16 ++ ([100, 97, 116, 97] ++ (u32le ds ++ data))))))))))) := by
    rw [hb]; exact List.drop_left' rfl
  have d8 : b.drop 8 = [87, 65, 86, 69] ++ ([102, 109, 116, 32]
        ++ (u32le 16 ++ (u16le 1 ++ (u16le 1 ++ (u32le rate ++ (u32le (rate * 2)
        ++ (u16le 2 ++ (u16le 16 ++ ([100, 97, 116, 97] ++ (u32le ds ++ data)))))))))) := by
    have h : b.drop 8 = (b.drop 4).drop 4 := by rw [List.drop_drop]
    rw [h, d4]; exact List.drop_left' rfl
  have d12 : b.drop 12 = [102, 109, 116, 32]
        ++ (u32le 16 ++ (u16le 1 ++ (u16le 1 ++ (u32le rate ++ (u32le (rate * 2)
        ++ (u16le 2 ++ (u16le 16 ++ ([100, 97, 116, 97] ++ (u32le ds ++ data))))))))) := by
    have h : b.drop 12 = (b.drop 8).drop 4 := by rw [List.drop_drop]
    rw [h, d8]; exact List.drop_left' rfl
  have d16 : b.drop 16 = u32le 16 ++ (u16le 1 ++ (u16le 1 ++ (u32le rate ++ (u32le (rate * 2)
        ++ (u16le 2 ++ (u16le 16 ++ ([100, 97, 116, 97] ++ (u32le ds ++ data)))))))) := by
    have h : b.drop 16 = (b.drop 12).drop 4 := by rw [List.drop_drop]
    rw [h, d12]; exact List.drop_left' rfl
  have d20 : b.drop 20 = u16le 1 ++ (u16le 1 ++ (u32le rate ++ (u32le (rate * 2)
        ++ (u16le 2 ++ (u16le 16 ++ ([100, 97, 116, 97] ++ (u32le ds ++ data))))))) := by
    have h : b.drop 20 = (b.drop 16).drop 4 := by rw [List.drop_drop]
    rw [h, d16]; exact List.drop_left' rfl
  have d22 : b.drop 22 = u16le 1 ++ (u32le rate ++ (u32le (rate * 2)
        ++ (u16le 2 ++ (u16le 16 ++ ([100, 97, 116, 97] ++ (u32le ds ++ data)))))) := by
    have h : b.drop 22 = (b.drop 20).drop 2 := by rw [List.drop_drop]
    rw [h, d20]; exact List.drop_left' rfl
  have d24 : b.drop 24 = u32le rate ++ (u32le (rate * 2)
        ++ (u16le 2 ++ (u16le 16 ++ ([100, 97, 116, 97] ++ (u32le ds ++ data))))) := by
    have h : b.drop 24 = (b.drop 22).drop 2 := by rw [List.drop_drop]
    rw [h, d22]; exact List.drop_left' rfl
  have d28 : b.drop 28 = u32le (rate * 2)
        ++ (u16le 2 ++ (u16le 16 ++ ([100, 97, 116, 97] ++ (u32le ds ++ data)))) := by
    have h : b.drop 28 = (b.drop 24).drop 4 := by rw [List.drop_drop]
    rw [h, d24]; exact List.drop_left' rfl
  have d32 : b.drop 32 = u16le 2 ++ (u16le 16 ++ ([100, 97, 116, 97] ++ (u32le ds ++ data))) := by
    have h : b.drop 32 = (b.drop 28).drop 4 := by rw [List.drop_drop]
    rw [h, d28]; exact List.drop_left' rfl
  have d34 : b.drop 34 = u16le 16 ++ ([100, 97, 116, 97] ++ (u32le ds ++ data)) := by
    have h : b.drop 34 = (b.drop 32).drop 2 := by rw [List.drop_drop]
    rw [h, d32]; exact List.drop_left' rfl
  have d36 : b.drop 36 = [100, 97, 116, 97] ++ (u32le ds ++ data) := by
    have h : b.drop 36 = (b.drop 34).drop 2 := by rw [List.drop_drop]
    rw [h, d34]; exact List.drop_left' rfl
  have d40 : b.drop 40 = u32le ds ++ data := by
    have h : b.drop 40 = (b.drop 36).drop 4 := by rw [List.drop_drop]
    rw [h, d36]; exact List.drop_left' rfl
  refine ⟨?_, ?_, ?_, ?_, ?_, ?_, ?_, ?_, ?_⟩
  · show (b.drop 0).take 4 = _
    rw [List.drop_zero, hb]; exact List.take_left' rfl
  · show (b.drop 4).take 4 = _
    rw [d4]; exact List.take_left' rfl
  · show (b.drop 8).take 4 = _
    rw [d8]; exact List.take_left' rfl
  · show (b.drop 12).take 4 = _
    rw [d12]; exact List.take_left' rfl
  · show (b.drop 20).take 2 = _
    rw [d20]; exact List.take_left' rfl
  · show (b.drop 22).take 2 = _
    rw [d22]; exact List.take_left' rfl
  · show (b.drop 34).take 2 = _
    rw [d34]; exact List.take_left' rfl
  · show (b.drop 36).take 4 = _
    rw [d36]; exact List.take_left' rfl
  · show (b.drop 40).take 4 = _
    rw [d40]; exact List.take_left' rfl

/-- C6: for every in-contract sample sequence (whose data chunk fits the
32-bit WAV size fields) and every sample rate, the encoder produces a WAV
byte stream that decodes back to exactly the input's number of 16-bit mono
PCM samples. -/
theorem wav_roundtrip_sample_count (samples : List ℚ) (rate : Nat)
    (hN : 36 + 2 * samples.length < 4294967296)
    (hc : ∀ s ∈ samples, -1 ≤ s ∧ s ≤ 1) :
    ∃ b, samples_to_wav_bytes samples rate = .ok b ∧
      wav_num_samples b = some samples.length := by
  refine ⟨_, rfl, ?_⟩
  obtain ⟨h0, h4, h8, h12, h20, h22, h34, h36, h40⟩ :=
    wav_drops (2 * samples.length) rate
      (samples.flatMap fun s => i16le (sample_to_i16 s))
  have hlen : (wav_header (2 * samples.length) rate
      ++ (samples.flatMap fun s => i16le (sample_to_i16 s))).length =
      44 + 2 * samples.length := by
    rw [List.length_append, wav_header_len, flat_len]
  unfold wav_num_samples
  rw [h0, h4, h8, h12, h20, h22, h34, h36, h40, readU32le_u32le, readU32le_u32le, hlen]
  split
  · simp only [Option.some.injEq]
    omega
  · next h =>
    exact absurd ⟨rfl, rfl, rfl, rfl, rfl, rfl, rfl, by omega, by omega, by omega⟩ h

/-- Witness for C6 at the one-sample in-contract input at 16 kHz. -/
theorem wav_roundtrip_sample_count_witness :
    36 + 2 * ([(1 : ℚ) / 2]).length < 4294967296 ∧
    ∃ b, samples_to_wav_bytes [(1 : ℚ) / 2] 16000 = .ok b ∧
      wav_num_samples b = some ([(1 : ℚ) / 2]).length :=
  ⟨by norm_num,
    wav_roundtrip_sample_count [(1 : ℚ) / 2] 16000 (by norm_num)
      (by
        intro s hs
        rw [List.mem_singleton] at hs
        subst hs
        constructor <;> norm_num)⟩
